import Mathlib

/-!
Verification of the NexusPulse vitality engine (`lib/vitality-engine.ts`).

The engine is a pure arithmetic module: `computeVitality` turns a record of
raw repository metrics into a report (weighted score, discrete state, trend,
health percentage), `resolveState` classifies a score into one of five
states, `STATE_CONFIGS` is a constant presentation table, and
`formatMetricValue` renders large counts with K/M suffixes.

Numbers are embedded as exact rationals (`ℚ`); the metric counts are `ℕ`,
matching the data-model contract (`integer ≥ 0`).  JavaScript's
`Math.round` rounds half toward positive infinity, embedded as
`roundJS x = ⌊x + 1/2⌋`; `Math.round(x * 10) / 10` (rounding to one
decimal) is embedded as `round1`.
-/

/-- The five vitality states, in the source's declaration order. -/
inductive VitalityState where
  | dormant
  | recovering
  | stable
  | thriving
  | supernova
deriving DecidableEq, Repr, Fintype

/-- Position of a state in the vitality order
`dormant < recovering < stable < thriving < supernova`. -/
def VitalityState.rank : VitalityState → ℕ
  | .dormant => 0
  | .recovering => 1
  | .stable => 2
  | .thriving => 3
  | .supernova => 4

/-- The `mascotAnimation` enumeration of `StateConfig`. -/
inductive MascotAnimation where
  | idle
  | pulse
  | breathe
  | orbit
  | supernova
deriving DecidableEq, Repr

/-- The `trend` field of `VitalityReport`. -/
inductive Trend where
  | rising
  | falling
  | flat
deriving DecidableEq, Repr

/-- Input record `RawMetrics`: counts are non-negative integers per the
data-model contract. -/
structure RawMetrics where
  commits : ℕ
  prsMerged : ℕ
  staleIssues : ℕ
  totalIssues : ℕ
  totalStars : ℕ
  totalForks : ℕ
  contributors : ℕ
  lastCommitDate : String
deriving DecidableEq, Repr

/-- `StateConfig`: per-state presentation metadata. -/
structure StateConfig where
  label : String
  emoji : String
  color : String
  glowColor : String
  description : String
  mascotAnimation : MascotAnimation
  particleCount : ℕ
  ringColor : String
deriving DecidableEq, Repr

/-- The `breakdown` sub-record of `VitalityReport`. -/
structure Breakdown where
  commitContribution : ℚ
  prContribution : ℚ
  stalePenalty : ℚ
deriving DecidableEq, Repr

/-- Output record `VitalityReport`.  `healthPercentage` is an integer
(the source applies `Math.round` to it). -/
structure VitalityReport where
  score : ℚ
  normalizedScore : ℚ
  state : VitalityState
  breakdown : Breakdown
  stateConfig : StateConfig
  trend : Trend
  healthPercentage : ℤ
deriving DecidableEq, Repr

/-- JavaScript `Math.round`: round half toward positive infinity. -/
def roundJS (x : ℚ) : ℤ := ⌊x + 1/2⌋

/-- JavaScript `Math.round(x * 10) / 10`: round to one decimal place. -/
def round1 (x : ℚ) : ℚ := (roundJS (x * 10) : ℚ) / 10

/-- The static `STATE_CONFIGS` table, field for field. -/
def STATE_CONFIGS : VitalityState → StateConfig
  | .dormant =>
    { label := "Dormant"
      emoji := "🌑"
      color := "text-pulse-muted"
      glowColor := "#4a5080"
      description := "Repository activity has ceased. Awaiting revival."
      mascotAnimation := .idle
      particleCount := 0
      ringColor := "conic-gradient(from 0deg, #4a5080, #2a2d4a, #4a5080)" }
  | .recovering =>
    { label := "Recovering"
      emoji := "🌒"
      color := "text-pulse-amber"
      glowColor := "#ffb830"
      description := "Faint signals detected. Growth patterns emerging."
      mascotAnimation := .breathe
      particleCount := 4
      ringColor := "conic-gradient(from 0deg, #ffb830, #ff6b00, #ffb830)" }
  | .stable =>
    { label := "Stable"
      emoji := "🌗"
      color := "text-pulse-cyan"
      glowColor := "#00d4ff"
      description := "Consistent cadence. The system holds steady."
      mascotAnimation := .pulse
      particleCount := 8
      ringColor := "conic-gradient(from 0deg, #00d4ff, #0066ff, #00d4ff)" }
  | .thriving =>
    { label := "Thriving"
      emoji := "🌕"
      color := "text-pulse-green"
      glowColor := "#00ff9d"
      description := "Peak performance. High contributor momentum detected."
      mascotAnimation := .orbit
      particleCount := 16
      ringColor := "conic-gradient(from 0deg, #00ff9d, #00b4d8, #6c63ff, #00ff9d)" }
  | .supernova =>
    { label := "Supernova"
      emoji := "✨"
      color := "text-yellow-300"
      glowColor := "#ff6b35"
      description := "CRITICAL MASS ACHIEVED. Extraordinary activity surge."
      mascotAnimation := .supernova
      particleCount := 32
      ringColor := "conic-gradient(from 0deg, #ff6b35, #ff4069, #6c63ff, #00ff9d, #ffb830, #ff6b35)" }

/-- `resolveState`: classify a raw score into a state. -/
def resolveState (score : ℚ) : VitalityState :=
  if score < 0 then .dormant
  else if score < 25 then .recovering
  else if score < 60 then .stable
  else if score < 90 then .thriving
  else .supernova

/-- `const commitContribution = metrics.commits * 0.5`. -/
def commitContributionVal (m : RawMetrics) : ℚ := (m.commits : ℚ) * 0.5

/-- `const prContribution = metrics.prsMerged * 0.3`. -/
def prContributionVal (m : RawMetrics) : ℚ := (m.prsMerged : ℚ) * 0.3

/-- `const stalePenalty = metrics.staleIssues * 0.2`. -/
def stalePenaltyVal (m : RawMetrics) : ℚ := (m.staleIssues : ℚ) * 0.2

/-- `const score = commitContribution + prContribution - stalePenalty`. -/
def scoreVal (m : RawMetrics) : ℚ :=
  commitContributionVal m + prContributionVal m - stalePenaltyVal m

/-- `const MAX_EXPECTED_SCORE = 120`. -/
def MAX_EXPECTED_SCORE : ℚ := 120

/-- `const normalizedScore = Math.max(0, Math.min(100, (score / MAX_EXPECTED_SCORE) * 100))`. -/
def normalizedScoreVal (m : RawMetrics) : ℚ :=
  max 0 (min 100 (scoreVal m / MAX_EXPECTED_SCORE * 100))

/-- `const staleRatio = metrics.totalIssues > 0 ? metrics.staleIssues / metrics.totalIssues : 0`. -/
def staleRatioVal (m : RawMetrics) : ℚ :=
  if 0 < m.totalIssues then (m.staleIssues : ℚ) / (m.totalIssues : ℚ) else 0

/-- `const healthPercentage = Math.max(0, Math.min(100, normalizedScore * (1 - staleRatio * 0.5)))`
(the unrounded value). -/
def healthPercentageVal (m : RawMetrics) : ℚ :=
  max 0 (min 100 (normalizedScoreVal m * (1 - staleRatioVal m * 0.5)))

/-- `const commitMomentum = metrics.commits * 0.5`. -/
def commitMomentumVal (m : RawMetrics) : ℚ := (m.commits : ℚ) * 0.5

/-- `const closureMomentum = metrics.prsMerged * 0.3`. -/
def closureMomentumVal (m : RawMetrics) : ℚ := (m.prsMerged : ℚ) * 0.3

/-- The conditional chain assigning `trend`. -/
def trendVal (m : RawMetrics) : Trend :=
  if commitMomentumVal m > closureMomentumVal m + 10 then .rising
  else if closureMomentumVal m > commitMomentumVal m + 10 then .falling
  else .flat

/-- `computeVitality`: the returned `VitalityReport` object literal. -/
def computeVitality (metrics : RawMetrics) : VitalityReport :=
  { score := round1 (scoreVal metrics)
    normalizedScore := round1 (normalizedScoreVal metrics)
    state := resolveState (scoreVal metrics)
    breakdown :=
      { commitContribution := round1 (commitContributionVal metrics)
        prContribution := round1 (prContributionVal metrics)
        stalePenalty := round1 (stalePenaltyVal metrics) }
    stateConfig := STATE_CONFIGS (resolveState (scoreVal metrics))
    trend := trendVal metrics
    healthPercentage := roundJS (healthPercentageVal metrics) }

/-- `(t / 10).toString() + "." + (t % 10).toString()` rendering used below:
JavaScript `x.toFixed(1)` for a non-negative number, on exact rationals
(round to nearest tenth, half up). -/
def jsToFixed1 (x : ℚ) : String :=
  let t := roundJS (x * 10)
  s!"{t / 10}.{t % 10}"

/-- `formatMetricValue`: format large counts with K/M suffixes. -/
def formatMetricValue (value : ℕ) : String :=
  if value ≥ 1000000 then jsToFixed1 ((value : ℚ) / 1000000) ++ "M"
  else if value ≥ 1000 then jsToFixed1 ((value : ℚ) / 1000) ++ "K"
  else toString value

/-- The spec's description of `formatMetricValue`, written from its words:
thresholds 1,000,000 and 1,000 checked in that order, first match wins;
`"{n/1e6:.1f}M"`, `"{n/1e3:.1f}K"`, else the plain integer as a string. -/
def formatMetricValueSpec (n : ℕ) : String :=
  if 1000000 ≤ n then jsToFixed1 ((n : ℚ) / 1000000) ++ "M"
  else if 1000 ≤ n then jsToFixed1 ((n : ℚ) / 1000) ++ "K"
  else toString n

/-! ### Rounding helpers -/

theorem roundJS_mono {x y : ℚ} (h : x ≤ y) : roundJS x ≤ roundJS y :=
  Int.floor_mono (by linarith)

theorem roundJS_intCast (n : ℤ) : roundJS (n : ℚ) = n := by
  rw [roundJS, Int.floor_int_add]
  norm_num

theorem sub_half_lt_roundJS (x : ℚ) : x - 1/2 < (roundJS x : ℚ) := by
  have h := Int.sub_one_lt_floor (x + 1/2)
  rw [roundJS]
  linarith

theorem roundJS_nonneg {x : ℚ} (h : 0 ≤ x) : 0 ≤ roundJS x := by
  have h0 : roundJS (0 : ℚ) = 0 := by
    rw [show ((0 : ℚ)) = ((0 : ℤ) : ℚ) by norm_num, roundJS_intCast]
  calc (0 : ℤ) = roundJS 0 := h0.symm
    _ ≤ roundJS x := roundJS_mono h

theorem roundJS_le_hundred {x : ℚ} (h : x ≤ 100) : roundJS x ≤ 100 := by
  have h100 : roundJS (100 : ℚ) = 100 := by
    rw [show ((100 : ℚ)) = ((100 : ℤ) : ℚ) by norm_num, roundJS_intCast]
  calc roundJS x ≤ roundJS 100 := roundJS_mono h
    _ = 100 := h100

theorem round1_eq_self {x : ℚ} {n : ℤ} (h : x * 10 = (n : ℚ)) : round1 x = x := by
  rw [round1, h, roundJS_intCast, ← h]
  field_simp

/-! ### State classification -/

theorem resolveState_iff (s : ℚ) :
    (resolveState s = .dormant ↔ s < 0) ∧
    (resolveState s = .recovering ↔ 0 ≤ s ∧ s < 25) ∧
    (resolveState s = .stable ↔ 25 ≤ s ∧ s < 60) ∧
    (resolveState s = .thriving ↔ 60 ≤ s ∧ s < 90) ∧
    (resolveState s = .supernova ↔ 90 ≤ s) := by
  unfold resolveState
  split_ifs with h1 h2 h3 h4 <;> refine ⟨?_, ?_, ?_, ?_, ?_⟩ <;> simp_all
  all_goals intros
  all_goals linarith

theorem rank_resolveState (s : ℚ) :
    (resolveState s).rank =
      if s < 0 then 0 else if s < 25 then 1 else if s < 60 then 2
      else if s < 90 then 3 else 4 := by
  unfold resolveState
  split_ifs <;> rfl

/-- C1: `resolveState` (and hence the `state` field of `computeVitality`,
which applies it to the raw score) partitions the rational line by
left-inclusive contiguous thresholds: `score < 0 → dormant`,
`0 ≤ score < 25 → recovering`, `25 ≤ score < 60 → stable`,
`60 ≤ score < 90 → thriving`, `score ≥ 90 → supernova`; in particular
each state holds exactly on its range, and the boundary scores 0, 25, 60,
90 map to recovering, stable, thriving, supernova respectively. -/
theorem resolveState_partition :
    (∀ s : ℚ,
      (resolveState s = .dormant ↔ s < 0) ∧
      (resolveState s = .recovering ↔ 0 ≤ s ∧ s < 25) ∧
      (resolveState s = .stable ↔ 25 ≤ s ∧ s < 60) ∧
      (resolveState s = .thriving ↔ 60 ≤ s ∧ s < 90) ∧
      (resolveState s = .supernova ↔ 90 ≤ s)) ∧
    (∀ m : RawMetrics, (computeVitality m).state = resolveState (scoreVal m)) ∧
    resolveState 0 = .recovering ∧ resolveState 25 = .stable ∧
    resolveState 60 = .thriving ∧ resolveState 90 = .supernova := by
  refine ⟨resolveState_iff, fun m => rfl, ?_, ?_, ?_, ?_⟩ <;> norm_num [resolveState]

/-- C10: state classification is monotone in the score: a higher raw score
never produces a lower state under the vitality order
`dormant < recovering < stable < thriving < supernova` (encoded by
`VitalityState.rank`). -/
theorem resolveState_monotone (s1 s2 : ℚ) (h : s1 ≤ s2) :
    (resolveState s1).rank ≤ (resolveState s2).rank := by
  rw [rank_resolveState, rank_resolveState]
  split_ifs <;> linarith

/-- Witness for C10 at the concrete scores 0 and 95. -/
theorem resolveState_monotone_witness :
    (0 : ℚ) ≤ 95 ∧ (resolveState 0).rank ≤ (resolveState 95).rank :=
  ⟨by norm_num, resolveState_monotone 0 95 (by norm_num)⟩

/-! ### Projections of `computeVitality` -/

theorem computeVitality_score (m : RawMetrics) :
    (computeVitality m).score = round1 (scoreVal m) := rfl

theorem computeVitality_normalizedScore (m : RawMetrics) :
    (computeVitality m).normalizedScore = round1 (normalizedScoreVal m) := rfl

theorem computeVitality_state (m : RawMetrics) :
    (computeVitality m).state = resolveState (scoreVal m) := rfl

theorem computeVitality_breakdown (m : RawMetrics) :
    (computeVitality m).breakdown =
      { commitContribution := round1 (commitContributionVal m)
        prContribution := round1 (prContributionVal m)
        stalePenalty := round1 (stalePenaltyVal m) } := rfl

theorem computeVitality_trend (m : RawMetrics) :
    (computeVitality m).trend = trendVal m := rfl

theorem computeVitality_healthPercentage (m : RawMetrics) :
    (computeVitality m).healthPercentage = roundJS (healthPercentageVal m) := rfl

/-! ### Range bounds -/

theorem normalizedScoreVal_nonneg (m : RawMetrics) : 0 ≤ normalizedScoreVal m :=
  le_max_left _ _

theorem normalizedScoreVal_le (m : RawMetrics) : normalizedScoreVal m ≤ 100 :=
  max_le (by norm_num) (min_le_left _ _)

theorem healthPercentageVal_nonneg (m : RawMetrics) : 0 ≤ healthPercentageVal m :=
  le_max_left _ _

theorem healthPercentageVal_le (m : RawMetrics) : healthPercentageVal m ≤ 100 :=
  max_le (by norm_num) (min_le_left _ _)

theorem round1_bounds {x : ℚ} (h0 : 0 ≤ x) (h1 : x ≤ 100) :
    0 ≤ round1 x ∧ round1 x ≤ 100 := by
  have ha : (0 : ℤ) ≤ roundJS (x * 10) := roundJS_nonneg (by linarith)
  have hb : roundJS (x * 10) ≤ 1000 := by
    have hm := roundJS_mono (show x * 10 ≤ ((1000 : ℤ) : ℚ) by push_cast; linarith)
    rwa [roundJS_intCast] at hm
  constructor
  · rw [round1]
    apply div_nonneg _ (by norm_num)
    exact_mod_cast ha
  · rw [round1, div_le_iff₀ (by norm_num : (0:ℚ) < 10)]
    have : ((roundJS (x * 10) : ℤ) : ℚ) ≤ ((1000 : ℤ) : ℚ) := by exact_mod_cast hb
    push_cast at this ⊢
    linarith

/-- C2: for every metrics record (counts are non-negative integers by the
input contract), the report's `normalizedScore` and `healthPercentage`
lie within [0, 100] inclusive, however large the inputs are. -/
theorem computeVitality_scores_bounded (m : RawMetrics) :
    0 ≤ (computeVitality m).normalizedScore ∧
    (computeVitality m).normalizedScore ≤ 100 ∧
    0 ≤ (computeVitality m).healthPercentage ∧
    (computeVitality m).healthPercentage ≤ 100 := by
  obtain ⟨a, b⟩ := round1_bounds (normalizedScoreVal_nonneg m) (normalizedScoreVal_le m)
  refine ⟨?_, ?_, ?_, ?_⟩
  · rw [computeVitality_normalizedScore]; exact a
  · rw [computeVitality_normalizedScore]; exact b
  · rw [computeVitality_healthPercentage]
    exact roundJS_nonneg (healthPercentageVal_nonneg m)
  · rw [computeVitality_healthPercentage]
    exact roundJS_le_hundred (healthPercentageVal_le m)

/-! ### Exactness of the one-decimal roundings -/

theorem round1_commitContribution (m : RawMetrics) :
    round1 (commitContributionVal m) = commitContributionVal m := by
  apply round1_eq_self (n := 5 * (m.commits : ℤ))
  rw [commitContributionVal]
  push_cast
  ring_nf

theorem round1_prContribution (m : RawMetrics) :
    round1 (prContributionVal m) = prContributionVal m := by
  apply round1_eq_self (n := 3 * (m.prsMerged : ℤ))
  rw [prContributionVal]
  push_cast
  ring_nf

theorem round1_stalePenalty (m : RawMetrics) :
    round1 (stalePenaltyVal m) = stalePenaltyVal m := by
  apply round1_eq_self (n := 2 * (m.staleIssues : ℤ))
  rw [stalePenaltyVal]
  push_cast
  ring_nf

theorem round1_score (m : RawMetrics) :
    round1 (scoreVal m) = scoreVal m := by
  apply round1_eq_self
    (n := 5 * (m.commits : ℤ) + 3 * (m.prsMerged : ℤ) - 2 * (m.staleIssues : ℤ))
  rw [scoreVal, commitContributionVal, prContributionVal, stalePenaltyVal]
  push_cast
  ring_nf

/-- C4: in every report, the three rounded breakdown terms and the rounded
score satisfy `commitContribution + prContribution - stalePenalty = score`
within a 0.1 tolerance (for integer inputs each one-decimal rounding is in
fact exact, so the difference is 0). -/
theorem breakdown_sum_matches_score (m : RawMetrics) :
    |(computeVitality m).breakdown.commitContribution +
      (computeVitality m).breakdown.prContribution -
      (computeVitality m).breakdown.stalePenalty -
      (computeVitality m).score| ≤ 1/10 := by
  rw [computeVitality_breakdown, computeVitality_score]
  simp only [round1_commitContribution, round1_prContribution, round1_stalePenalty,
    round1_score]
  rw [scoreVal]
  simp

/-- C5: the trend is `rising` exactly when `commits * 0.5 > prsMerged * 0.3 + 10`,
`falling` exactly when `prsMerged * 0.3 > commits * 0.5 + 10`, and `flat`
otherwise; the two momentum quantities are numerically identical to
`commitContribution` and `prContribution`. -/
theorem trend_characterization (m : RawMetrics) :
    ((computeVitality m).trend = .rising ↔
      (m.commits : ℚ) * 0.5 > (m.prsMerged : ℚ) * 0.3 + 10) ∧
    ((computeVitality m).trend = .falling ↔
      (m.prsMerged : ℚ) * 0.3 > (m.commits : ℚ) * 0.5 + 10) ∧
    ((computeVitality m).trend = .flat ↔
      ¬((m.commits : ℚ) * 0.5 > (m.prsMerged : ℚ) * 0.3 + 10) ∧
      ¬((m.prsMerged : ℚ) * 0.3 > (m.commits : ℚ) * 0.5 + 10)) ∧
    commitMomentumVal m = commitContributionVal m ∧
    closureMomentumVal m = prContributionVal m := by
  refine ⟨?_, ?_, ?_, rfl, rfl⟩ <;>
    rw [computeVitality_trend, trendVal, commitMomentumVal, closureMomentumVal] <;>
    split_ifs with h1 h2 <;> simp_all
  all_goals linarith

/-- C9: in the `STATE_CONFIGS` table the particle counts of the five states
are 0, 4, 8, 16, 32 in vitality order, and they are strictly increasing as
the state advances. -/
theorem particleCount_values_monotone :
    (STATE_CONFIGS .dormant).particleCount = 0 ∧
    (STATE_CONFIGS .recovering).particleCount = 4 ∧
    (STATE_CONFIGS .stable).particleCount = 8 ∧
    (STATE_CONFIGS .thriving).particleCount = 16 ∧
    (STATE_CONFIGS .supernova).particleCount = 32 ∧
    ∀ s t : VitalityState, s.rank < t.rank →
      (STATE_CONFIGS s).particleCount < (STATE_CONFIGS t).particleCount := by
  refine ⟨rfl, rfl, rfl, rfl, rfl, ?_⟩
  decide

/-- Witness for C9 at the concrete pair recovering, supernova. -/
theorem particleCount_values_monotone_witness :
    VitalityState.rank .recovering < VitalityState.rank .supernova ∧
    (STATE_CONFIGS .recovering).particleCount < (STATE_CONFIGS .supernova).particleCount :=
  ⟨by decide, particleCount_values_monotone.2.2.2.2.2 .recovering .supernova (by decide)⟩

/-! ### The stale-issue discount -/

theorem staleRatioVal_nonneg (m : RawMetrics) : 0 ≤ staleRatioVal m := by
  rw [staleRatioVal]
  split_ifs
  · positivity
  · exact le_refl 0

theorem staleRatioVal_le_one (m : RawMetrics) (h : m.staleIssues ≤ m.totalIssues) :
    staleRatioVal m ≤ 1 := by
  rw [staleRatioVal]
  split_ifs with ht
  · rw [div_le_one (by exact_mod_cast ht)]
    exact_mod_cast h
  · norm_num

/-- C6: `healthPercentage` is the rounded clamp of
`normalizedScore * (1 - staleRatio * 0.5)`, and under the caller invariant
`staleIssues ≤ totalIssues` the discount can cost at most half: the
reported integer is at least half of the unrounded normalized score, up to
integer rounding (within 1/2). -/
theorem healthPercentage_formula_half_bound (m : RawMetrics)
    (h : m.staleIssues ≤ m.totalIssues) :
    (computeVitality m).healthPercentage =
      roundJS (max 0 (min 100 (normalizedScoreVal m * (1 - staleRatioVal m * 0.5)))) ∧
    (normalizedScoreVal m / 2 - 1/2 : ℚ) ≤ ((computeVitality m).healthPercentage : ℚ) := by
  have hsr0 := staleRatioVal_nonneg m
  have hsr1 := staleRatioVal_le_one m h
  have hns0 := normalizedScoreVal_nonneg m
  have hns100 := normalizedScoreVal_le m
  have hfac : (1 : ℚ) - staleRatioVal m * 0.5 ≤ 1 := by norm_num; linarith
  have hfac2 : (1 : ℚ)/2 ≤ 1 - staleRatioVal m * 0.5 := by norm_num; linarith
  have hv1 : normalizedScoreVal m * (1 - staleRatioVal m * 0.5) ≤ normalizedScoreVal m := by
    nlinarith
  have hv2 : normalizedScoreVal m / 2 ≤ normalizedScoreVal m * (1 - staleRatioVal m * 0.5) := by
    nlinarith
  have hval : healthPercentageVal m = normalizedScoreVal m * (1 - staleRatioVal m * 0.5) := by
    rw [healthPercentageVal, min_eq_right (by linarith), max_eq_right (by linarith)]
  refine ⟨computeVitality_healthPercentage m, ?_⟩
  rw [computeVitality_healthPercentage, hval]
  have hlow := sub_half_lt_roundJS (normalizedScoreVal m * (1 - staleRatioVal m * 0.5))
  linarith

/-- Witness for C6 at `commits = 10, prsMerged = 5, staleIssues = 3,
totalIssues = 6`. -/
theorem healthPercentage_formula_half_bound_witness :
    (RawMetrics.mk 10 5 3 6 1 2 3 "2024-01-01").staleIssues ≤
      (RawMetrics.mk 10 5 3 6 1 2 3 "2024-01-01").totalIssues ∧
    ((computeVitality (RawMetrics.mk 10 5 3 6 1 2 3 "2024-01-01")).healthPercentage =
      roundJS (max 0 (min 100 (normalizedScoreVal (RawMetrics.mk 10 5 3 6 1 2 3 "2024-01-01") *
        (1 - staleRatioVal (RawMetrics.mk 10 5 3 6 1 2 3 "2024-01-01") * 0.5)))) ∧
    (normalizedScoreVal (RawMetrics.mk 10 5 3 6 1 2 3 "2024-01-01") / 2 - 1/2 : ℚ) ≤
      ((computeVitality (RawMetrics.mk 10 5 3 6 1 2 3 "2024-01-01")).healthPercentage : ℚ)) :=
  ⟨by norm_num,
    healthPercentage_formula_half_bound (RawMetrics.mk 10 5 3 6 1 2 3 "2024-01-01") (by norm_num)⟩

/-! ### The all-zero input -/

theorem roundJS_zero : roundJS 0 = 0 := by
  rw [show (0 : ℚ) = ((0 : ℤ) : ℚ) by norm_num, roundJS_intCast]

/-- C7: on the all-zero metric counts (whatever the informational star,
fork, contributor and date fields are) the report has `score = 0`,
`state = recovering`, `healthPercentage = 0` and `trend = flat`. -/
theorem computeVitality_all_zero (stars forks contribs : ℕ) (d : String) :
    (computeVitality (RawMetrics.mk 0 0 0 0 stars forks contribs d)).score = 0 ∧
    (computeVitality (RawMetrics.mk 0 0 0 0 stars forks contribs d)).state = .recovering ∧
    (computeVitality (RawMetrics.mk 0 0 0 0 stars forks contribs d)).healthPercentage = 0 ∧
    (computeVitality (RawMetrics.mk 0 0 0 0 stars forks contribs d)).trend = .flat := by
  have hs : scoreVal (RawMetrics.mk 0 0 0 0 stars forks contribs d) = 0 := by
    simp [scoreVal, commitContributionVal, prContributionVal, stalePenaltyVal]
  have hns : normalizedScoreVal (RawMetrics.mk 0 0 0 0 stars forks contribs d) = 0 := by
    rw [normalizedScoreVal, hs]
    rw [zero_div, zero_mul, min_eq_right (by norm_num : (0:ℚ) ≤ 100), max_self]
  have hsr : staleRatioVal (RawMetrics.mk 0 0 0 0 stars forks contribs d) = 0 := by
    rw [staleRatioVal]
    simp
  have hhp : healthPercentageVal (RawMetrics.mk 0 0 0 0 stars forks contribs d) = 0 := by
    rw [healthPercentageVal, hns, zero_mul, min_eq_right (by norm_num : (0:ℚ) ≤ 100), max_self]
  refine ⟨?_, ?_, ?_, ?_⟩
  · rw [computeVitality_score, hs, round1, zero_mul, roundJS_zero]
    norm_num
  · rw [computeVitality_state, hs]
    norm_num [resolveState]
  · rw [computeVitality_healthPercentage, hhp, roundJS_zero]
  · rw [computeVitality_trend, trendVal, commitMomentumVal, closureMomentumVal]
    norm_num

/-! ### `totalIssues = 0`: the guard and the exact health value -/

theorem roundJS_intCast_add (n : ℤ) (x : ℚ) : roundJS ((n : ℚ) + x) = n + roundJS x := by
  rw [roundJS, roundJS, add_assoc, Int.floor_int_add]

theorem roundJS_div12_fixed (r : ℤ) (h0 : 0 ≤ r) (h12 : r < 12) :
    roundJS ((r : ℚ) / 12) = roundJS ((roundJS ((r : ℚ) / 12 * 10) : ℚ) / 10) := by
  interval_cases r <;> norm_num [roundJS]

theorem roundJS_round1_div12 (n : ℤ) :
    roundJS ((n : ℚ) / 12) = roundJS (round1 ((n : ℚ) / 12)) := by
  obtain ⟨q, r, hr0, hr12, hn⟩ : ∃ q r : ℤ, 0 ≤ r ∧ r < 12 ∧ n = 12 * q + r :=
    ⟨n / 12, n % 12, Int.emod_nonneg n (by norm_num), Int.emod_lt_of_pos n (by norm_num),
      (Int.ediv_add_emod n 12).symm⟩
  subst hn
  have e1 : ((12 * q + r : ℤ) : ℚ) / 12 = (q : ℚ) + (r : ℚ) / 12 := by push_cast; ring
  have e2 : ((q : ℚ) + (r : ℚ) / 12) * 10 = ((10 * q : ℤ) : ℚ) + (r : ℚ) / 12 * 10 := by
    push_cast; ring
  rw [e1, roundJS_intCast_add, round1, e2, roundJS_intCast_add]
  have e3 : ((10 * q + roundJS ((r : ℚ) / 12 * 10) : ℤ) : ℚ) / 10 =
      (q : ℚ) + (roundJS ((r : ℚ) / 12 * 10) : ℚ) / 10 := by push_cast; ring
  rw [e3, roundJS_intCast_add]
  exact congrArg (q + ·) (roundJS_div12_fixed r hr0 hr12)

theorem normalizedScoreVal_div12 (m : RawMetrics) :
    ∃ n : ℤ, normalizedScoreVal m = (n : ℚ) / 12 := by
  have hx : scoreVal m / MAX_EXPECTED_SCORE * 100 =
      ((5 * (m.commits : ℤ) + 3 * (m.prsMerged : ℤ) - 2 * (m.staleIssues : ℤ) : ℤ) : ℚ) / 12 := by
    rw [scoreVal, commitContributionVal, prContributionVal, stalePenaltyVal, MAX_EXPECTED_SCORE]
    push_cast
    ring_nf
  set N : ℤ := 5 * (m.commits : ℤ) + 3 * (m.prsMerged : ℤ) - 2 * (m.staleIssues : ℤ) with hN
  rcases le_total ((N : ℚ) / 12) 0 with h | h
  · refine ⟨0, ?_⟩
    rw [normalizedScoreVal, hx, min_eq_right (h.trans (by norm_num)), max_eq_left h]
    norm_num
  · rcases le_total ((N : ℚ) / 12) 100 with h2 | h2
    · exact ⟨N, by rw [normalizedScoreVal, hx, min_eq_right h2, max_eq_right h]⟩
    · refine ⟨1200, ?_⟩
      rw [normalizedScoreVal, hx, min_eq_left h2, max_eq_right (by norm_num : (0:ℚ) ≤ 100)]
      norm_num

/-- C3: with `totalIssues = 0` the guard forces `staleRatio = 0` (no
division is attempted), and the reported `healthPercentage` is exactly the
rounding of the normalized score — both of the unrounded clamp value and of
the report's own one-decimal `normalizedScore` field. -/
theorem zero_totalIssues_health (m : RawMetrics) (h : m.totalIssues = 0) :
    staleRatioVal m = 0 ∧
    (computeVitality m).healthPercentage = roundJS (normalizedScoreVal m) ∧
    (computeVitality m).healthPercentage = roundJS ((computeVitality m).normalizedScore) := by
  have hsr : staleRatioVal m = 0 := by
    rw [staleRatioVal, h]
    simp
  have hval : healthPercentageVal m = normalizedScoreVal m := by
    rw [healthPercentageVal, hsr]
    rw [show (1 : ℚ) - 0 * 0.5 = 1 by norm_num, mul_one]
    rw [min_eq_right (normalizedScoreVal_le m), max_eq_right (normalizedScoreVal_nonneg m)]
  refine ⟨hsr, ?_, ?_⟩
  · rw [computeVitality_healthPercentage, hval]
  · rw [computeVitality_healthPercentage, computeVitality_normalizedScore, hval]
    obtain ⟨n, hn⟩ := normalizedScoreVal_div12 m
    rw [hn]
    exact roundJS_round1_div12 n

/-- Witness for C3 at `commits = 7, prsMerged = 3, staleIssues = 5,
totalIssues = 0`. -/
theorem zero_totalIssues_health_witness :
    (RawMetrics.mk 7 3 5 0 1 1 1 "2024-01-01").totalIssues = 0 ∧
    (staleRatioVal (RawMetrics.mk 7 3 5 0 1 1 1 "2024-01-01") = 0 ∧
     (computeVitality (RawMetrics.mk 7 3 5 0 1 1 1 "2024-01-01")).healthPercentage =
       roundJS (normalizedScoreVal (RawMetrics.mk 7 3 5 0 1 1 1 "2024-01-01")) ∧
     (computeVitality (RawMetrics.mk 7 3 5 0 1 1 1 "2024-01-01")).healthPercentage =
       roundJS ((computeVitality (RawMetrics.mk 7 3 5 0 1 1 1 "2024-01-01")).normalizedScore)) :=
  ⟨rfl, zero_totalIssues_health (RawMetrics.mk 7 3 5 0 1 1 1 "2024-01-01") rfl⟩

/-- C8: `formatMetricValue` agrees everywhere with the spec's description
(thresholds 1,000,000 then 1,000 checked in order, first match winning,
with one-decimal K/M rendering, else the plain integer string), checked
also on concrete inputs on each branch and at the boundaries. -/
theorem formatMetricValue_spec_agreement :
    (∀ n : ℕ, formatMetricValue n = formatMetricValueSpec n) ∧
    formatMetricValue 2500000 = "2.5M" ∧
    formatMetricValue 1000000 = "1.0M" ∧
    formatMetricValue 999999 = "1000.0K" ∧
    formatMetricValue 1500 = "1.5K" ∧
    formatMetricValue 999 = "999" := by
  refine ⟨fun n => rfl, ?_, ?_, ?_, ?_, ?_⟩
  · have hr : roundJS (((2500000 : ℕ) : ℚ) / 1000000 * 10) = 25 := by norm_num [roundJS]
    rw [formatMetricValue, if_pos (by norm_num), jsToFixed1, hr]
    rfl
  · have hr : roundJS (((1000000 : ℕ) : ℚ) / 1000000 * 10) = 10 := by norm_num [roundJS]
    rw [formatMetricValue, if_pos (by norm_num), jsToFixed1, hr]
    rfl
  · have hr : roundJS (((999999 : ℕ) : ℚ) / 1000 * 10) = 10000 := by norm_num [roundJS]
    rw [formatMetricValue, if_neg (by norm_num), if_pos (by norm_num), jsToFixed1, hr]
    rfl
  · have hr : roundJS (((1500 : ℕ) : ℚ) / 1000 * 10) = 15 := by norm_num [roundJS]
    rw [formatMetricValue, if_neg (by norm_num), if_pos (by norm_num), jsToFixed1, hr]
    rfl
  · rw [formatMetricValue, if_neg (by norm_num), if_neg (by norm_num)]
    rfl
